import Mathlib

set_option linter.unusedVariables false

/-!
Shallow embedding of the AutoStream AI pipeline stage coordinator: the
zustand store defined in frontend/src/hooks/useWorkflow.js, together with
the navigation buttons of WorkflowStepper.jsx.  Every asynchronous gateway
(axios) call made by a store action is modelled as an oracle argument of
type Except String α: constructor ok is a resolved call carrying the
response data the action reads, and constructor error carries
error.message.  A store action then becomes a pure function from the
pre-call state and the oracle outcome to the post-call state; a thrown
precondition error (e.g. generateScript with no selected trend) leaves the
state untouched, exactly as the JavaScript throw does before any set().
-/

/-- The six step identifiers of the steps array in useWorkflow.js, in order:
trends, script, audio, assets, video, complete (the spec names them
Discovery, Scripting, Voicing, AssetConfig, Rendering, Complete). -/
inductive StepId where
  | trends
  | script
  | audio
  | assets
  | video
  | complete
deriving DecidableEq, BEq, Inhabited

/-- The ordered steps list of the store (only the id field matters to the
navigation logic; name and description are presentation strings). -/
def steps : List StepId :=
  [.trends, .script, .audio, .assets, .video, .complete]

/-- A trend object as described by the spec data model (id, title, optional
description, source, optional url, optional engagement metric). -/
structure Trend where
  id : String
  title : String
  description : Option String
  source : String
  url : Option String
  engagementMetric : Option Int
deriving DecidableEq

/-- The script slice of the store: { content: '', title: '', duration: 0 }. -/
structure Script where
  content : String
  title : String
  duration : Int
deriving DecidableEq

/-- The audio slice of the store: { path: '', url: '', duration: 0 }. -/
structure Audio where
  path : String
  url : String
  duration : Int
deriving DecidableEq

/-- The assets slice of the store: { avatar: null, logo: null, background: null };
each field holds the reference string returned by the upload endpoint. -/
structure Assets where
  avatar : Option String
  logo : Option String
  background : Option String
deriving DecidableEq

/-- The video slice of the store: { outputPath: '', url: '', progress: 0 }. -/
structure Video where
  outputPath : String
  url : String
  progress : Int
deriving DecidableEq

/-- The whole zustand store state of useWorkflow.js (the constant steps
array is kept as the global definition steps above, since no action ever
writes it). -/
structure WorkflowState where
  currentStep : StepId
  projectId : Option String
  isLoading : Bool
  error : Option String
  trends : List Trend
  selectedTrend : Option Trend
  script : Script
  audio : Audio
  assets : Assets
  video : Video
  voices : List String
  availableModels : List String
deriving DecidableEq

/-- The initial store state produced by create() in useWorkflow.js. -/
def initialState : WorkflowState :=
  { currentStep := .trends
    projectId := none
    isLoading := false
    error := none
    trends := []
    selectedTrend := none
    script := ⟨"", "", 0⟩
    audio := ⟨"", "", 0⟩
    assets := ⟨none, none, none⟩
    video := ⟨"", "", 0⟩
    voices := []
    availableModels := [] }

/-- Response data of POST /api/script/generate as read by generateScript:
content, title and duration_estimate. -/
structure ScriptData where
  content : String
  title : String
  duration_estimate : Int
deriving DecidableEq

/-- Response data of POST /api/audio/generate as read by generateAudio:
path, url and duration. -/
structure AudioData where
  path : String
  url : String
  duration : Int
deriving DecidableEq

/-- Response data of POST /api/video/generate as read by generateVideo:
path and url. -/
structure VideoData where
  path : String
  url : String
deriving DecidableEq

/-- setCurrentStep: set({ currentStep: step }). -/
def setCurrentStep (s : WorkflowState) (step : StepId) : WorkflowState :=
  { s with currentStep := step }

/-- nextStep: find the index of currentStep in steps and, when it is not the
last index, set currentStep to the following id. -/
def nextStep (s : WorkflowState) : WorkflowState :=
  let currentIndex := steps.findIdx (· == s.currentStep)
  if currentIndex < steps.length - 1 then
    { s with currentStep := steps.getD (currentIndex + 1) .trends }
  else s

/-- previousStep: find the index of currentStep in steps and, when it is
positive, set currentStep to the preceding id. -/
def previousStep (s : WorkflowState) : WorkflowState :=
  let currentIndex := steps.findIdx (· == s.currentStep)
  if 0 < currentIndex then
    { s with currentStep := steps.getD (currentIndex - 1) .trends }
  else s

/-- searchTrends: set isLoading true and clear error, await the gateway, then
either store the returned trend list (success) or store error.message
(failure); isLoading is false again on both paths. -/
def searchTrends (s : WorkflowState) (query niche : String)
    (r : Except String (List Trend)) : WorkflowState :=
  let s' := { s with isLoading := true, error := none }
  match r with
  | .ok data => { s' with trends := data, isLoading := false }
  | .error msg => { s' with error := some msg, isLoading := false }

/-- selectTrend: set isLoading true and clear error, await the gateway, then
on success commit selectedTrend and call nextStep; on failure store
error.message.  No other store field is written on the success path. -/
def selectTrend (s : WorkflowState) (trend : Trend)
    (r : Except String Unit) : WorkflowState :=
  let s' := { s with isLoading := true, error := none }
  match r with
  | .ok _ => nextStep { s' with selectedTrend := some trend, isLoading := false }
  | .error msg => { s' with error := some msg, isLoading := false }

/-- generateScript: throw immediately (state untouched) when no trend is
selected; otherwise set isLoading true and clear error, await the gateway,
and on success replace the script slice wholesale with the response data.
The stage is not advanced. -/
def generateScript (s : WorkflowState) (tone len : String)
    (r : Except String ScriptData) : WorkflowState :=
  match s.selectedTrend with
  | none => s
  | some _ =>
    let s' := { s with isLoading := true, error := none }
    match r with
    | .ok d =>
      { s' with script := ⟨d.content, d.title, d.duration_estimate⟩, isLoading := false }
    | .error msg => { s' with error := some msg, isLoading := false }

/-- updateScript: await the gateway, then on success replace only the
content field of the script slice (spread of the previous script); on
failure store error.message.  Neither isLoading nor error is touched at
entry, and the stage never changes. -/
def updateScript (s : WorkflowState) (content : String)
    (r : Except String Unit) : WorkflowState :=
  match r with
  | .ok _ => { s with script := { s.script with content := content } }
  | .error msg => { s with error := some msg }

/-- approveScript: await the gateway, then on success call nextStep; on
failure store error.message.  No local guard is evaluated and error is not
cleared at entry. -/
def approveScript (s : WorkflowState) (r : Except String Unit) : WorkflowState :=
  match r with
  | .ok _ => nextStep s
  | .error msg => { s with error := some msg }

/-- loadVoices: on success store the voice list; a failure is only logged to
the console, the store is untouched. -/
def loadVoices (s : WorkflowState) (r : Except String (List String)) : WorkflowState :=
  match r with
  | .ok v => { s with voices := v }
  | .error _ => s

/-- generateAudio: throw immediately (state untouched) when the script
content is the empty string; otherwise set isLoading true and clear error,
await the gateway, and on success replace the audio slice with the response
data. -/
def generateAudio (s : WorkflowState) (voiceId : String)
    (stability similarityBoost : Int) (r : Except String AudioData) : WorkflowState :=
  if s.script.content == "" then s
  else
    let s' := { s with isLoading := true, error := none }
    match r with
    | .ok d => { s' with audio := ⟨d.path, d.url, d.duration⟩, isLoading := false }
    | .error msg => { s' with error := some msg, isLoading := false }

/-- approveAudio: await the gateway, then on success call nextStep; on
failure store error.message. -/
def approveAudio (s : WorkflowState) (r : Except String Unit) : WorkflowState :=
  match r with
  | .ok _ => nextStep s
  | .error msg => { s with error := some msg }

/-- uploadAvatar: set isLoading true and clear error, await the gateway, on
success write only the avatar field of the assets slice. -/
def uploadAvatar (s : WorkflowState) (r : Except String String) : WorkflowState :=
  let s' := { s with isLoading := true, error := none }
  match r with
  | .ok a => { s' with assets := { s'.assets with avatar := some a }, isLoading := false }
  | .error msg => { s' with error := some msg, isLoading := false }

/-- uploadLogo: like uploadAvatar but writing only the logo field. -/
def uploadLogo (s : WorkflowState) (r : Except String String) : WorkflowState :=
  let s' := { s with isLoading := true, error := none }
  match r with
  | .ok l => { s' with assets := { s'.assets with logo := some l }, isLoading := false }
  | .error msg => { s' with error := some msg, isLoading := false }

/-- uploadBackground: like uploadAvatar but writing only the background
field. -/
def uploadBackground (s : WorkflowState) (r : Except String String) : WorkflowState :=
  let s' := { s with isLoading := true, error := none }
  match r with
  | .ok b => { s' with assets := { s'.assets with background := some b }, isLoading := false }
  | .error msg => { s' with error := some msg, isLoading := false }

/-- generateVideo: set isLoading true and clear error, await the gateway, on
success write the video slice with outputPath, url and progress 100.  The
store performs no validation of its own and never advances the stage. -/
def generateVideo (s : WorkflowState) (useHeygem : Bool) (quality : String)
    (r : Except String VideoData) : WorkflowState :=
  let s' := { s with isLoading := true, error := none }
  match r with
  | .ok d => { s' with video := ⟨d.path, d.url, 100⟩, isLoading := false }
  | .error msg => { s' with error := some msg, isLoading := false }

/-- createProject: await the gateway, on success store project_id; on
failure store error.message.  Neither isLoading nor error is touched at
entry. -/
def createProject (s : WorkflowState) (name : String)
    (r : Except String String) : WorkflowState :=
  match r with
  | .ok pid => { s with projectId := some pid }
  | .error msg => { s with error := some msg }

/-- loadModels: on success store the model list; a failure is only logged to
the console, the store is untouched. -/
def loadModels (s : WorkflowState) (r : Except String (List String)) : WorkflowState :=
  match r with
  | .ok m => { s with availableModels := m }
  | .error _ => s

/-- resetError: set({ error: null }). -/
def resetError (s : WorkflowState) : WorkflowState :=
  { s with error := none }

/-- reset: restore every listed field to its initial value (note the source
resets neither voices nor availableModels). -/
def reset (s : WorkflowState) : WorkflowState :=
  { s with currentStep := .trends
           projectId := none
           isLoading := false
           error := none
           trends := []
           selectedTrend := none
           script := ⟨"", "", 0⟩
           audio := ⟨"", "", 0⟩
           assets := ⟨none, none, none⟩
           video := ⟨"", "", 0⟩ }

/-- The Skip button of WorkflowStepper.jsx invokes nextStep and is disabled
exactly when currentIndex >= steps.length - 2; no artifact or approval is
consulted. -/
def skipDisabled (s : WorkflowState) : Bool :=
  decide (steps.length - 2 ≤ steps.findIdx (· == s.currentStep))

/-- The stage following a given stage in the steps order (complete is a
fixed point, matching the guard currentIndex < steps.length - 1). -/
def nextOf : StepId → StepId
  | .trends => .script
  | .script => .audio
  | .audio => .assets
  | .assets => .video
  | .video => .complete
  | .complete => .complete

/-- The stage preceding a given stage in the steps order (trends is a fixed
point, matching the guard currentIndex > 0). -/
def prevOf : StepId → StepId
  | .trends => .trends
  | .script => .trends
  | .audio => .script
  | .assets => .audio
  | .video => .assets
  | .complete => .video

/-- One coordinator operation together with the outcome of the single
gateway call it makes (operations that make no gateway call carry none). -/
inductive Op where
  | setCurrentStep (step : StepId)
  | nextStep
  | previousStep
  | searchTrends (query niche : String) (r : Except String (List Trend))
  | selectTrend (t : Trend) (r : Except String Unit)
  | generateScript (tone len : String) (r : Except String ScriptData)
  | updateScript (content : String) (r : Except String Unit)
  | approveScript (r : Except String Unit)
  | loadVoices (r : Except String (List String))
  | generateAudio (voiceId : String) (stability similarityBoost : Int)
      (r : Except String AudioData)
  | approveAudio (r : Except String Unit)
  | uploadAvatar (r : Except String String)
  | uploadLogo (r : Except String String)
  | uploadBackground (r : Except String String)
  | generateVideo (useHeygem : Bool) (quality : String) (r : Except String VideoData)
  | createProject (name : String) (r : Except String String)
  | loadModels (r : Except String (List String))
  | resetError
  | reset

/-- Dispatch one operation to the corresponding store action. -/
def applyOp (s : WorkflowState) : Op → WorkflowState
  | .setCurrentStep step => setCurrentStep s step
  | .nextStep => nextStep s
  | .previousStep => previousStep s
  | .searchTrends q n r => searchTrends s q n r
  | .selectTrend t r => selectTrend s t r
  | .generateScript tone len r => generateScript s tone len r
  | .updateScript c r => updateScript s c r
  | .approveScript r => approveScript s r
  | .loadVoices r => loadVoices s r
  | .generateAudio v st sb r => generateAudio s v st sb r
  | .approveAudio r => approveAudio s r
  | .uploadAvatar r => uploadAvatar s r
  | .uploadLogo r => uploadLogo s r
  | .uploadBackground r => uploadBackground s r
  | .generateVideo u q r => generateVideo s u q r
  | .createProject n r => createProject s n r
  | .loadModels r => loadModels s r
  | .resetError => resetError s
  | .reset => reset s

/-- Run a sequence of coordinator operations from a state. -/
def run (s : WorkflowState) (ops : List Op) : WorkflowState :=
  ops.foldl applyOp s

/-- Whether a gateway outcome is an error. -/
def isErr {α : Type} : Except String α → Bool
  | .ok _ => false
  | .error _ => true

/-- The error message carried by a gateway outcome, when any. -/
def errOf {α : Type} : Except String α → Option String
  | .ok _ => none
  | .error m => some m

/-- Whether an operation fails from a given state: its gateway call raised,
or a precondition throw fired before the call (generateScript with no
selected trend, generateAudio with empty script content). -/
def opFails (s : WorkflowState) : Op → Bool
  | .searchTrends _ _ r => isErr r
  | .selectTrend _ r => isErr r
  | .generateScript _ _ r => s.selectedTrend.isNone || isErr r
  | .updateScript _ r => isErr r
  | .approveScript r => isErr r
  | .loadVoices r => isErr r
  | .generateAudio _ _ _ r => (s.script.content == "") || isErr r
  | .approveAudio r => isErr r
  | .uploadAvatar r => isErr r
  | .uploadLogo r => isErr r
  | .uploadBackground r => isErr r
  | .generateVideo _ _ r => isErr r
  | .createProject _ r => isErr r
  | .loadModels r => isErr r
  | _ => false

/-- Whether an operation, started from a given state, reaches its
set({ isLoading: true, error: null }) line: exactly the operations whose
source begins with that call, minus the precondition-throw paths that
throw before it. -/
def setsBusy (s : WorkflowState) : Op → Bool
  | .searchTrends _ _ _ => true
  | .selectTrend _ _ => true
  | .generateScript _ _ _ => s.selectedTrend.isSome
  | .generateAudio _ _ _ _ => !(s.script.content == "")
  | .uploadAvatar _ => true
  | .uploadLogo _ => true
  | .uploadBackground _ => true
  | .generateVideo _ _ _ => true
  | _ => false

/-- The gateway error message an operation carries, when any. -/
def gwErr : Op → Option String
  | .searchTrends _ _ r => errOf r
  | .selectTrend _ r => errOf r
  | .generateScript _ _ r => errOf r
  | .updateScript _ r => errOf r
  | .approveScript r => errOf r
  | .loadVoices r => errOf r
  | .generateAudio _ _ _ r => errOf r
  | .approveAudio r => errOf r
  | .uploadAvatar r => errOf r
  | .uploadLogo r => errOf r
  | .uploadBackground r => errOf r
  | .generateVideo _ _ r => errOf r
  | .createProject _ r => errOf r
  | .loadModels r => errOf r
  | _ => none

/-- The artifact fields of the store: selected trend, script, audio, asset
set and video output. -/
def artifactsOf (s : WorkflowState) :
    Option Trend × Script × Audio × Assets × Video :=
  (s.selectedTrend, s.script, s.audio, s.assets, s.video)

/-- Whether a string is empty or consists only of whitespace characters. -/
def isBlankStr (s : String) : Bool :=
  s.data.all Char.isWhitespace

/-- Modelled from the spec: the backend handler for POST /api/script/approve
is not in the repository snapshot (only its axios declaration is).  Per the
spec its guard is that the script content is non-empty and not
whitespace-only; the backend's stored script content is taken to equal the
coordinator's, since every script write is first committed through the
gateway. -/
def apiApproveScript (s : WorkflowState) : Except String Unit :=
  if isBlankStr s.script.content then
    .error "ValidationError: script content is empty"
  else .ok ()

/-- Modelled from the spec: the backend handler for POST /api/video/generate
is not in the repository snapshot (only its axios declaration is).  Per the
spec it fails with a ValidationError when either the avatar reference or
the audio reference is absent, regardless of the lip-sync flag and quality
preset, and otherwise renders and returns the video payload (the payload is
a parameter, the backend output being unconstrained by the spec). -/
def apiGenerateVideo (s : WorkflowState) (useHeygem : Bool) (quality : String)
    (d : VideoData) : Except String VideoData :=
  if s.assets.avatar.isNone || s.audio.path == "" then
    .error "ValidationError: avatar and audio are required"
  else .ok d

/-- A concrete trend used by the concrete evaluations below. -/
def sampleTrend : Trend :=
  ⟨"t1", "AI agents", some "Agents are trending", "news", none, some 9000⟩

/-- A state at the Discovery step whose script slice already holds text
(e.g. left over from an earlier run through the wizard). -/
def dirtyState : WorkflowState :=
  { initialState with script := ⟨"old script text", "Old title", 42⟩ }

/-- A state at the Discovery step with non-empty script content. -/
def scriptedState : WorkflowState :=
  { initialState with script := ⟨"Hello world", "Greeting", 10⟩ }

/-- A state carrying a stored error from an earlier failed operation. -/
def erroredState : WorkflowState :=
  { initialState with error := some "earlier failure" }

theorem nextStep_eq (s : WorkflowState) :
    nextStep s = { s with currentStep := nextOf s.currentStep } := by
  rcases s with ⟨c, _, _, _, _, _, _, _, _, _, _, _⟩
  cases c <;> rfl

theorem opFails_preserves_artifacts (s : WorkflowState) (op : Op)
    (h : opFails s op = true) :
    artifactsOf (applyOp s op) = artifactsOf s := by
  cases op with
  | setCurrentStep step => simp [opFails] at h
  | nextStep => simp [opFails] at h
  | previousStep => simp [opFails] at h
  | searchTrends q n r =>
    cases r with
    | ok d => simp [opFails, isErr] at h
    | error m => rfl
  | selectTrend t r =>
    cases r with
    | ok u => simp [opFails, isErr] at h
    | error m => rfl
  | generateScript tone len r =>
    cases hsel : s.selectedTrend with
    | none => simp [applyOp, generateScript, hsel]
    | some t =>
      cases r with
      | ok d => simp [opFails, isErr, hsel] at h
      | error m => simp [applyOp, generateScript, hsel, artifactsOf]
  | updateScript c r =>
    cases r with
    | ok u => simp [opFails, isErr] at h
    | error m => rfl
  | approveScript r =>
    cases r with
    | ok u => simp [opFails, isErr] at h
    | error m => rfl
  | loadVoices r =>
    cases r with
    | ok v => simp [opFails, isErr] at h
    | error m => rfl
  | generateAudio v st sb r =>
    cases hc : (s.script.content == "") with
    | true => simp [applyOp, generateAudio, hc]
    | false =>
      cases r with
      | ok d => simp [opFails, isErr, hc] at h
      | error m => simp [applyOp, generateAudio, hc, artifactsOf]
  | approveAudio r =>
    cases r with
    | ok u => simp [opFails, isErr] at h
    | error m => rfl
  | uploadAvatar r =>
    cases r with
    | ok a => simp [opFails, isErr] at h
    | error m => rfl
  | uploadLogo r =>
    cases r with
    | ok l => simp [opFails, isErr] at h
    | error m => rfl
  | uploadBackground r =>
    cases r with
    | ok b => simp [opFails, isErr] at h
    | error m => rfl
  | generateVideo u q r =>
    cases r with
    | ok d => simp [opFails, isErr] at h
    | error m => rfl
  | createProject n r =>
    cases r with
    | ok p => simp [opFails, isErr] at h
    | error m => rfl
  | loadModels r =>
    cases r with
    | ok m => simp [opFails, isErr] at h
    | error m => rfl
  | resetError => simp [opFails] at h
  | reset => simp [opFails] at h

/-- C1 counterexample: from a state whose script slice already holds text,
a successful selectTrend leaves the script content exactly as it was
(non-empty), refuting the clause that after any selectTrend the script
content is the empty string. -/
theorem selectTrend_does_not_clear_script :
    (selectTrend dirtyState sampleTrend (.ok ())).script.content = "old script text" ∧
    "old script text" ≠ "" := by
  exact ⟨rfl, by decide⟩

/-- C1 (amended): a successful selectTrend commits the trend and advances to
the immediately following stage (Scripting when called at Discovery), but
clears no downstream artifact: the script, audio, assets and video slices
are all left unchanged. -/
theorem selectTrend_commits_and_advances_without_clearing
    (s : WorkflowState) (t : Trend) :
    (selectTrend s t (.ok ())).selectedTrend = some t ∧
    (selectTrend s t (.ok ())).currentStep = nextOf s.currentStep ∧
    (selectTrend s t (.ok ())).script = s.script ∧
    (selectTrend s t (.ok ())).audio = s.audio ∧
    (selectTrend s t (.ok ())).assets = s.assets ∧
    (selectTrend s t (.ok ())).video = s.video := by
  simp [selectTrend, nextStep_eq]

/-- C2 counterexample: at the initial state no trend is selected and the
script is empty, yet nextStep advances the stage from trends to script, and
the stepper's Skip button is enabled (disabled only by position, never by a
missing prerequisite artifact or approval). -/
theorem nextStep_advances_without_prerequisite :
    initialState.selectedTrend = none ∧
    initialState.script.content = "" ∧
    skipDisabled initialState = false ∧
    (nextStep initialState).currentStep = StepId.script :=
  ⟨rfl, rfl, rfl, rfl⟩

/-- C2 (amended): nextStep advances the stage to the immediately following
one whenever the current stage is not the last, with no prerequisite or
approval check, and setCurrentStep sets any stage unconditionally; neither
touches any artifact field. -/
theorem nextStep_unguarded_advance (s : WorkflowState) (step : StepId) :
    (nextStep s).currentStep = nextOf s.currentStep ∧
    artifactsOf (nextStep s) = artifactsOf s ∧
    (setCurrentStep s step).currentStep = step ∧
    artifactsOf (setCurrentStep s step) = artifactsOf s := by
  simp [nextStep_eq, setCurrentStep, artifactsOf]

/-- C3: for every sequence of coordinator operations and every next
operation that fails from the reached state (its gateway call raises, or a
precondition throw fires before the call), the artifact fields of the store
(selected trend, script, audio, assets, video) after the failed call equal
their value immediately before it: no partial artifact write is
observable. -/
theorem failed_op_preserves_artifacts (init : WorkflowState) (pre : List Op)
    (op : Op) (h : opFails (run init pre) op = true) :
    artifactsOf (applyOp (run init pre) op) = artifactsOf (run init pre) :=
  opFails_preserves_artifacts (run init pre) op h

/-- C3 witness: from the initial state, a searchTrends call whose gateway
rejects with a network error fails, and the artifacts are unchanged. -/
theorem failed_op_preserves_artifacts_witness :
    opFails (run initialState []) (Op.searchTrends "AI" "tech" (.error "network down")) = true ∧
    artifactsOf (applyOp (run initialState [])
        (Op.searchTrends "AI" "tech" (.error "network down"))) =
      artifactsOf (run initialState []) :=
  ⟨rfl, failed_op_preserves_artifacts initialState [] _ rfl⟩

/-- C4 counterexample: at a state whose current stage is Discovery (trends)
but whose script content is the non-empty string Hello world, approveScript
run against the spec-modelled gateway guard succeeds and lands at Scripting
(script), not at Voicing (audio): the advances-to-Voicing clause of the
claim is false at this state. -/
theorem approveScript_nonempty_not_to_voicing :
    scriptedState.script.content ≠ "" ∧
    (approveScript scriptedState (apiApproveScript scriptedState)).currentStep = StepId.script ∧
    StepId.script ≠ StepId.audio := by
  refine ⟨by decide, by decide, by decide⟩

/-- C4 (amended): with the spec-modelled backend guard, approveScript on a
state whose script content is empty or whitespace-only fails, stores the
validation message and leaves the stage unchanged; on non-whitespace
content it advances the stage to the immediately following one (Voicing
when called at Scripting) and leaves the stored error as it was.  In both
cases every artifact field is untouched. -/
theorem approveScript_guard_behavior (s : WorkflowState) :
    (approveScript s (apiApproveScript s)).currentStep =
      (if isBlankStr s.script.content then s.currentStep else nextOf s.currentStep) ∧
    (approveScript s (apiApproveScript s)).error =
      (if isBlankStr s.script.content then
        some "ValidationError: script content is empty" else s.error) ∧
    (approveScript s (apiApproveScript s)).script = s.script ∧
    (approveScript s (apiApproveScript s)).selectedTrend = s.selectedTrend ∧
    (approveScript s (apiApproveScript s)).audio = s.audio ∧
    (approveScript s (apiApproveScript s)).assets = s.assets ∧
    (approveScript s (apiApproveScript s)).video = s.video := by
  cases hc : isBlankStr s.script.content with
  | true => simp [approveScript, apiApproveScript, hc]
  | false => simp [approveScript, apiApproveScript, hc, nextStep_eq]

/-- C5: with the spec-modelled backend validation, generateVideo fails and
writes no video artifact whenever the avatar reference or the audio
reference is absent, for every lip-sync flag and quality preset, storing
the ValidationError message; when both references are present it writes the
returned VideoArtifact (outputPath, url, progress 100); on neither path
does the stage advance. -/
theorem generateVideo_requires_avatar_and_audio (s : WorkflowState)
    (useHeygem : Bool) (quality : String) (d : VideoData) :
    (generateVideo s useHeygem quality (apiGenerateVideo s useHeygem quality d)).currentStep
      = s.currentStep ∧
    (generateVideo s useHeygem quality (apiGenerateVideo s useHeygem quality d)).video =
      (if s.assets.avatar.isNone || s.audio.path == "" then s.video
       else ⟨d.path, d.url, 100⟩) ∧
    (generateVideo s useHeygem quality (apiGenerateVideo s useHeygem quality d)).error =
      (if s.assets.avatar.isNone || s.audio.path == "" then
        some "ValidationError: avatar and audio are required" else none) := by
  cases hc : (s.assets.avatar.isNone || s.audio.path == "") with
  | true => simp [generateVideo, apiGenerateVideo, hc]
  | false => simp [generateVideo, apiGenerateVideo, hc]

/-- C6 counterexample: an error stored by an earlier failed operation is
still stored after a subsequent successful updateScript, refuting the
clause that lastError is cleared at the start of every operation and never
persists across a later successful operation. -/
theorem stale_error_persists_after_updateScript :
    erroredState.error = some "earlier failure" ∧
    opFails erroredState (Op.updateScript "new content" (.ok ())) = false ∧
    (applyOp erroredState (Op.updateScript "new content" (.ok ()))).error =
      some "earlier failure" :=
  ⟨rfl, rfl, rfl⟩

/-- C6 (amended): every operation that reaches its set isLoading true line
(searchTrends, selectTrend, generateScript past its trend guard,
generateAudio past its content guard, the three uploads, generateVideo)
clears the stored error on entry, so after it the stored error is exactly
the gateway error of that call (none on success); the remaining operations
(updateScript, approveScript, approveAudio, createProject among them) never
clear a pre-existing error, which can therefore persist across a subsequent
successful operation. -/
theorem busy_ops_clear_error (s : WorkflowState) (op : Op)
    (h : setsBusy s op = true) :
    (applyOp s op).error = gwErr op := by
  cases op with
  | setCurrentStep step => simp [setsBusy] at h
  | nextStep => simp [setsBusy] at h
  | previousStep => simp [setsBusy] at h
  | searchTrends q n r => cases r <;> rfl
  | selectTrend t r =>
    cases r with
    | ok u => simp [applyOp, selectTrend, nextStep_eq, gwErr, errOf]
    | error m => rfl
  | generateScript tone len r =>
    cases hsel : s.selectedTrend with
    | none => simp [setsBusy, hsel] at h
    | some t =>
      cases r <;> simp [applyOp, generateScript, hsel, gwErr, errOf]
  | updateScript c r => simp [setsBusy] at h
  | approveScript r => simp [setsBusy] at h
  | loadVoices r => simp [setsBusy] at h
  | generateAudio v st sb r =>
    cases hc : (s.script.content == "") with
    | true => simp [setsBusy, hc] at h
    | false => cases r <;> simp [applyOp, generateAudio, hc, gwErr, errOf]
  | approveAudio r => simp [setsBusy] at h
  | uploadAvatar r => cases r <;> rfl
  | uploadLogo r => cases r <;> rfl
  | uploadBackground r => cases r <;> rfl
  | generateVideo u q r => cases r <;> rfl
  | createProject n r => simp [setsBusy] at h
  | loadModels r => simp [setsBusy] at h
  | resetError => simp [setsBusy] at h
  | reset => simp [setsBusy] at h

/-- C6 witness: from a state carrying a stale error, a successful
searchTrends (a busy operation) leaves the stored error equal to the
gateway error of the call, namely none. -/
theorem busy_ops_clear_error_witness :
    setsBusy erroredState (Op.searchTrends "AI" "tech" (.ok [])) = true ∧
    (applyOp erroredState (Op.searchTrends "AI" "tech" (.ok []))).error =
      gwErr (Op.searchTrends "AI" "tech" (.ok [])) :=
  ⟨rfl, busy_ops_clear_error erroredState _ rfl⟩

/-- C7: every operation that reaches its set isLoading true line has
isLoading false again in the state it leaves behind, on the success path
and on the gateway-failure path alike: the busy flag is never left stuck
true. -/
theorem busy_flag_released_on_exit (s : WorkflowState) (op : Op)
    (h : setsBusy s op = true) :
    (applyOp s op).isLoading = false := by
  cases op with
  | setCurrentStep step => simp [setsBusy] at h
  | nextStep => simp [setsBusy] at h
  | previousStep => simp [setsBusy] at h
  | searchTrends q n r => cases r <;> rfl
  | selectTrend t r =>
    cases r with
    | ok u => simp [applyOp, selectTrend, nextStep_eq]
    | error m => rfl
  | generateScript tone len r =>
    cases hsel : s.selectedTrend with
    | none => simp [setsBusy, hsel] at h
    | some t => cases r <;> simp [applyOp, generateScript, hsel]
  | updateScript c r => simp [setsBusy] at h
  | approveScript r => simp [setsBusy] at h
  | loadVoices r => simp [setsBusy] at h
  | generateAudio v st sb r =>
    cases hc : (s.script.content == "") with
    | true => simp [setsBusy, hc] at h
    | false => cases r <;> simp [applyOp, generateAudio, hc]
  | approveAudio r => simp [setsBusy] at h
  | uploadAvatar r => cases r <;> rfl
  | uploadLogo r => cases r <;> rfl
  | uploadBackground r => cases r <;> rfl
  | generateVideo u q r => cases r <;> rfl
  | createProject n r => simp [setsBusy] at h
  | loadModels r => simp [setsBusy] at h
  | resetError => simp [setsBusy] at h
  | reset => simp [setsBusy] at h

/-- C7 witness: from the initial state, a generateVideo call whose gateway
rejects is a busy operation and leaves isLoading false. -/
theorem busy_flag_released_on_exit_witness :
    setsBusy initialState (Op.generateVideo true "high" (.error "render crashed")) = true ∧
    (applyOp initialState (Op.generateVideo true "high" (.error "render crashed"))).isLoading
      = false :=
  ⟨rfl, busy_flag_released_on_exit initialState _ rfl⟩

/-- C8: previousStep changes only the current stage, moving to the
preceding stage exactly when the current index is positive and leaving the
state untouched otherwise (prevOf fixes trends); written as a whole-state
equation, so every artifact field and every other field is unchanged. -/
theorem previousStep_only_moves_stage (s : WorkflowState) :
    previousStep s = { s with currentStep := prevOf s.currentStep } := by
  rcases s with ⟨c, _, _, _, _, _, _, _, _, _, _, _⟩
  cases c <;> rfl

/-- C9 counterexample: at the initial state the last-searched trend list is
empty, so sampleTrend is not among the last-searched results, yet a
successful selectTrend commits it, reports no error, and advances the
stage: the claimed rejection of stale selections does not happen. -/
theorem selectTrend_accepts_unlisted_trend :
    initialState.trends = [] ∧
    (selectTrend initialState sampleTrend (.ok ())).selectedTrend = some sampleTrend ∧
    (selectTrend initialState sampleTrend (.ok ())).error = none ∧
    (selectTrend initialState sampleTrend (.ok ())).currentStep = StepId.script :=
  ⟨rfl, rfl, rfl, rfl⟩

/-- C9 (amended): selectTrend performs no membership check against the
last-searched results: even for a trend that is not among them, a
successful call commits the trend, stores no error and advances the
stage. -/
theorem selectTrend_no_membership_check (s : WorkflowState) (t : Trend)
    (h : t ∉ s.trends) :
    (selectTrend s t (.ok ())).selectedTrend = some t ∧
    (selectTrend s t (.ok ())).error = none ∧
    (selectTrend s t (.ok ())).currentStep = nextOf s.currentStep := by
  simp [selectTrend, nextStep_eq]

/-- C9 witness: sampleTrend is not among the (empty) last-searched results
of the initial state, and the amended statement holds there. -/
theorem selectTrend_no_membership_check_witness :
    (sampleTrend ∉ initialState.trends) ∧
    ((selectTrend initialState sampleTrend (.ok ())).selectedTrend = some sampleTrend ∧
     (selectTrend initialState sampleTrend (.ok ())).error = none ∧
     (selectTrend initialState sampleTrend (.ok ())).currentStep =
       nextOf initialState.currentStep) :=
  ⟨by simp [initialState],
   selectTrend_no_membership_check initialState sampleTrend (by simp [initialState])⟩

/-- C10: a successful updateScript replaces only the content field of the
script slice, leaving the script title and duration, the current stage and
every other field of the store (trend, audio, assets, video, error, busy
flag) unchanged. -/
theorem updateScript_replaces_only_content (s : WorkflowState) (c : String) :
    (updateScript s c (.ok ())).script.content = c ∧
    (updateScript s c (.ok ())).script.title = s.script.title ∧
    (updateScript s c (.ok ())).script.duration = s.script.duration ∧
    (updateScript s c (.ok ())).currentStep = s.currentStep ∧
    (updateScript s c (.ok ())).selectedTrend = s.selectedTrend ∧
    (updateScript s c (.ok ())).audio = s.audio ∧
    (updateScript s c (.ok ())).assets = s.assets ∧
    (updateScript s c (.ok ())).video = s.video ∧
    (updateScript s c (.ok ())).error = s.error ∧
    (updateScript s c (.ok ())).isLoading = s.isLoading :=
  ⟨rfl, rfl, rfl, rfl, rfl, rfl, rfl, rfl, rfl, rfl⟩
